import Mathlib

/-!
# Verification development for the zpigo messaging gateway

Shallow embedding, in Lean 4, of the session orchestrator and webhook
delivery engine of the zpigo repository, together with theorems settling
the behavioural claims about them.

Modelling conventions:
* Go `int`/`int64` fields are `Int` (overflow is irrelevant at the values
  involved); statistics counters, which are only ever incremented, are `Nat`.
* Go byte slices are `List Nat` (each entry a byte value).
* Go maps are functions `String → Option ·`.
* Wall-clock times are opaque `Int` parameters threaded explicitly.
* External collaborators (JSON serialization, the QR image encoder, the
  protocol client's network operations) are parameters of the functions
  that call them; the standard-library SHA-256/HMAC/hex primitives used by
  the signature path are implemented concretely below.
-/

namespace ZPigo

/-! ## Byte-level primitives (crypto/sha256, crypto/hmac, encoding/hex)

`Manager.generateSignature` calls Go's `crypto/hmac` with `crypto/sha256`
and `hex.EncodeToString`.  These are embedded concretely so that the
signature computation is executable: `sha256` follows FIPS 180-4 on byte
lists, `hmacSha256` is the RFC 2104 construction with a 64-byte block, and
`hexEncode` is the lowercase hex alphabet used by `encoding/hex`. -/

namespace Sha256

/-- Truncate to a 32-bit word. -/
def mod32 (x : Nat) : Nat := x % 4294967296

/-- Right rotation of a 32-bit word. -/
def rotr (n x : Nat) : Nat := (x >>> n) ||| ((x <<< (32 - n)) % 4294967296)

def bigS0 (x : Nat) : Nat := rotr 2 x ^^^ rotr 13 x ^^^ rotr 22 x

def bigS1 (x : Nat) : Nat := rotr 6 x ^^^ rotr 11 x ^^^ rotr 25 x

def smallS0 (x : Nat) : Nat := rotr 7 x ^^^ rotr 18 x ^^^ (x >>> 3)

def smallS1 (x : Nat) : Nat := rotr 17 x ^^^ rotr 19 x ^^^ (x >>> 10)

def ch (x y z : Nat) : Nat := (x &&& y) ^^^ ((x ^^^ 4294967295) &&& z)

def maj (x y z : Nat) : Nat := (x &&& y) ^^^ (x &&& z) ^^^ (y &&& z)

/-- The 64 SHA-256 round constants (FIPS 180-4 §4.2.2, here in decimal). -/
def K : List Nat :=
  [1116352408, 1899447441, 3049323471, 3921009573, 961987163,
   1508970993, 2453635748, 2870763221, 3624381080, 310598401,
   607225278, 1426881987, 1925078388, 2162078206, 2614888103,
   3248222580, 3835390401, 4022224774, 264347078, 604807628,
   770255983, 1249150122, 1555081692, 1996064986, 2554220882,
   2821834349, 2952996808, 3210313671, 3336571891, 3584528711,
   113926993, 338241895, 666307205, 773529912, 1294757372,
   1396182291, 1695183700, 1986661051, 2177026350, 2456956037,
   2730485921, 2820302411, 3259730800, 3345764771, 3516065817,
   3600352804, 4094571909, 275423344, 430227734, 506948616,
   659060556, 883997877, 958139571, 1322822218, 1537002063,
   1747873779, 1955562222, 2024104815, 2227730452, 2361852424,
   2428436474, 2756734187, 3204031479, 3329325298]

/-- The SHA-256 initial hash value (FIPS 180-4 §5.3.3, in decimal). -/
def H0 : List Nat :=
  [1779033703, 3144134277, 1013904242, 2773480762, 1359893119,
   2600822924, 528734635, 1541459225]

/-- `x` rendered as `n` big-endian bytes. -/
def bytesBE (n x : Nat) : List Nat :=
  (List.range n).map (fun i => (x >>> (8 * (n - 1 - i))) % 256)

/-- FIPS 180-4 padding: a `0x80` byte, zeros, and the 64-bit bit length. -/
def padMessage (msg : List Nat) : List Nat :=
  let l := msg.length
  let zeros := (119 - l % 64) % 64
  msg ++ [0x80] ++ List.replicate zeros 0 ++ bytesBE 8 (8 * l)

/-- Group bytes into big-endian 32-bit words. -/
def bytesToWords : List Nat → List Nat
  | a :: b :: c :: d :: rest => (((a * 256 + b) * 256 + c) * 256 + d) :: bytesToWords rest
  | _ => []

/-- Split a word list into 16-word blocks. -/
def chunks16 (ws : List Nat) : List (List Nat) :=
  if h : ws = [] then [] else
    ws.take 16 :: chunks16 (ws.drop 16)
termination_by ws.length
decreasing_by
  simp only [List.length_drop]
  have : 0 < ws.length := List.length_pos.mpr h
  omega

/-- One step of the message-schedule extension. -/
def extendSchedule (w : List Nat) : List Nat :=
  let n := w.length
  w ++ [mod32 (smallS1 (w.getD (n - 2) 0) + w.getD (n - 7) 0 +
               smallS0 (w.getD (n - 15) 0) + w.getD (n - 16) 0)]

/-- Expand a 16-word block into the 64-word message schedule. -/
def schedule (block : List Nat) : List Nat :=
  (List.range 48).foldl (fun w _ => extendSchedule w) block

/-- One SHA-256 round on the 8-word working state. -/
def round (k w : Nat) (s : List Nat) : List Nat :=
  match s with
  | [a, b, c, d, e, f, g, h] =>
      let t1 := mod32 (h + bigS1 e + ch e f g + k + w)
      let t2 := mod32 (bigS0 a + maj a b c)
      [mod32 (t1 + t2), a, b, c, mod32 (d + t1), e, f, g]
  | s => s

/-- Compress one 16-word block into the running hash. -/
def compressBlock (h : List Nat) (block : List Nat) : List Nat :=
  let s := (K.zip (schedule block)).foldl (fun s kw => round kw.1 kw.2 s) h
  (h.zip s).map (fun p => mod32 (p.1 + p.2))

/-- SHA-256 of a byte list, as 32 bytes. -/
def sha256 (msg : List Nat) : List Nat :=
  let hs := (chunks16 (bytesToWords (padMessage msg))).foldl compressBlock H0
  (hs.map (bytesBE 4)).flatten

end Sha256

/-- RFC 2104 HMAC over SHA-256 (block size 64), as used by `crypto/hmac`. -/
def hmacSha256 (key msg : List Nat) : List Nat :=
  let k1 := if key.length > 64 then Sha256.sha256 key else key
  let k2 := k1 ++ List.replicate (64 - k1.length) 0
  Sha256.sha256 ((k2.map (fun b => b ^^^ 0x5c)) ++
    Sha256.sha256 ((k2.map (fun b => b ^^^ 0x36)) ++ msg))

/-- One lowercase hex digit, per `encoding/hex`'s alphabet `0123456789abcdef`. -/
def hexDigitChar (n : Nat) : Char :=
  if n < 10 then Char.ofNat (48 + n) else Char.ofNat (87 + n)

/-- Lowercase hex encoding of a byte list (`hex.EncodeToString`). -/
def hexEncode (bs : List Nat) : String :=
  String.mk (bs.foldr (fun b acc => hexDigitChar (b >>> 4) :: hexDigitChar (b &&& 15) :: acc) [])

/-- UTF-8 encoding of one scalar value, as Go produces for `[]byte(string)`. -/
def utf8Char (c : Char) : List Nat :=
  let n := c.toNat
  if n < 0x80 then [n]
  else if n < 0x800 then [0xc0 ||| (n >>> 6), 0x80 ||| (n &&& 0x3f)]
  else if n < 0x10000 then
    [0xe0 ||| (n >>> 12), 0x80 ||| ((n >>> 6) &&& 0x3f), 0x80 ||| (n &&& 0x3f)]
  else
    [0xf0 ||| (n >>> 18), 0x80 ||| ((n >>> 12) &&& 0x3f),
     0x80 ||| ((n >>> 6) &&& 0x3f), 0x80 ||| (n &&& 0x3f)]

/-- The byte content of a Go string (`[]byte(s)`). -/
def utf8Bytes (s : String) : List Nat :=
  s.toList.foldr (fun c acc => utf8Char c ++ acc) []

/-! ## Webhook delivery engine (`internal/webhook`)

The engine's state is the configuration map, the optional global
configuration, the bounded delivery queue (a Go channel of capacity 1000,
modelled as a list bounded by a `capacity` field) and the statistics
counters.  Event payloads are an abstract type `α` and `json.Marshal` is a
parameter `marshal`; deliveries carry the structured `Payload` that
`queueDelivery` builds. -/

namespace Webhook

/-- `webhook.Config` (types.go). `timeout`/`retryDelay` are durations in
nanoseconds, as Go's `time.Duration`. -/
structure Config where
  url : String
  events : List String
  headers : List (String × String)
  timeout : Int
  maxRetries : Int
  retryDelay : Int
  enabled : Bool
  secret : String
deriving Repr, DecidableEq

/-- `webhook.Payload` (types.go): the JSON body skeleton
`{type, sessionId, timestamp, event, data}`. -/
structure Payload (α : Type) where
  type : String
  sessionId : String
  timestamp : Int
  event : α
  data : List (String × String)
deriving Repr, DecidableEq

/-- `webhook.Delivery` (types.go). -/
structure Delivery (α : Type) where
  id : String
  sessionId : String
  url : String
  payload : Payload α
  attempts : Int
  maxRetries : Int
  lastAttempt : Int
  nextRetry : Int
  status : String
  error : String
deriving Repr, DecidableEq

/-- `webhook.Stats` counters (only ever incremented). -/
structure Stats where
  totalSent : Nat
  totalSuccess : Nat
  totalFailed : Nat
  totalRetries : Nat
deriving Repr, DecidableEq

def Stats.zero : Stats := ⟨0, 0, 0, 0⟩

/-- `Manager` state: config map, global config, bounded queue, stats.
`capacity` is fixed to 1000 by `NewManager` (`make(chan *Delivery, 1000)`). -/
structure ManagerState (α : Type) where
  configs : String → Option Config
  globalConfig : Option Config
  queue : List (Delivery α)
  capacity : Nat
  stats : Stats

/-- `Manager.incrementStat`. -/
def incrementStat (s : Stats) (stat : String) : Stats :=
  if stat = "total_sent" then { s with totalSent := s.totalSent + 1 }
  else if stat = "total_success" then { s with totalSuccess := s.totalSuccess + 1 }
  else if stat = "total_failed" then { s with totalFailed := s.totalFailed + 1 }
  else if stat = "total_retries" then { s with totalRetries := s.totalRetries + 1 }
  else s

/-- `Manager.shouldSendEvent`: an empty subscription list sends nothing;
otherwise the event name or the wildcard `"All"` must be subscribed. -/
def shouldSendEvent (configuredEvents : List String) (eventType : String) : Bool :=
  if configuredEvents.isEmpty then false
  else configuredEvents.any (fun event => event = "All" || event = eventType)

/-- `Manager.queueDelivery`: build the payload and delivery and submit with
`select`/`default`.  When the queue is full the `default` arm runs: the
delivery is dropped with only a log line — no statistic is touched.  On a
successful enqueue `total_sent` is incremented.  `now` is
`time.Now().Unix()`, `nowNano` is `time.Now().UnixNano()`. -/
def queueDelivery (st : ManagerState α) (sessionID : String) (config : Config)
    (eventType : String) (eventData : α) (additionalData : List (String × String))
    (now nowNano : Int) : ManagerState α :=
  let payload : Payload α :=
    { type := eventType, sessionId := sessionID, timestamp := now
      event := eventData, data := additionalData }
  let delivery : Delivery α :=
    { id := sessionID ++ "-" ++ toString nowNano, sessionId := sessionID
      url := config.url, payload := payload, attempts := 0
      maxRetries := config.maxRetries, lastAttempt := 0, nextRetry := 0
      status := "pending", error := "" }
  if st.queue.length < st.capacity then
    { st with queue := st.queue ++ [delivery]
              stats := incrementStat st.stats "total_sent" }
  else
    st

/-- `Manager.Send`: deliver to the per-session configuration and then to the
global configuration, each guarded by `Enabled` and `shouldSendEvent`. -/
def send (st : ManagerState α) (sessionID eventType : String) (eventData : α)
    (additionalData : List (String × String)) (now nowNano : Int) : ManagerState α :=
  let st1 :=
    match st.configs sessionID with
    | some config =>
        if config.enabled && shouldSendEvent config.events eventType then
          queueDelivery st sessionID config eventType eventData additionalData now nowNano
        else st
    | none => st
  match st1.globalConfig with
  | some globalConfig =>
      if globalConfig.enabled && shouldSendEvent globalConfig.events eventType then
        queueDelivery st1 "global" globalConfig eventType eventData additionalData now nowNano
      else st1
  | none => st1

/-- `Manager.generateSignature`: `"sha256=" + hex(HMAC-SHA256(secret, payload))`. -/
def generateSignature (payload : List Nat) (secret : String) : String :=
  "sha256=" ++ hexEncode (hmacSha256 (utf8Bytes secret) payload)

/-- The outbound HTTP POST request assembled by `processDelivery`:
resty headers plus the serialized payload as the body. -/
structure HttpRequest where
  headers : List (String × String)
  body : List Nat
deriving Repr, DecidableEq

/-- The effective value of a header: `headers` lists the `SetHeader` calls
in order and a later call overwrites an earlier one for the same key, so
the last entry wins, as in resty. -/
def headerValue (hs : List (String × String)) (k : String) : Option String :=
  hs.reverse.lookup k

/-- Outcome of the HTTP POST performed by a worker. -/
inductive HTTPResult where
  | ok (status : Int)
  | netErr (msg : String)
deriving Repr, DecidableEq

/-- Result of one `processDelivery` call: the mutated delivery, the updated
stats, the request that was POSTed (`none` if serialization failed before
the POST), and whether a delayed retry goroutine was spawned. -/
structure ProcOut (α : Type) where
  delivery : Delivery α
  stats : Stats
  request : Option HttpRequest
  wantsRetry : Bool

/-- `Manager.handleDeliveryFailure`: retry with linear backoff
(`attempts * 5s`) while `attempts < maxRetries`, else mark `expired` and
count `total_failed`.  The spawned goroutine's enqueue (and its
`total_retries` increment, or silent drop when the queue is full) happens
at resubmission time and is modelled in the attempt driver. -/
def handleDeliveryFailure (now : Int) (st : Stats) (d : Delivery α) :
    Delivery α × Stats × Bool :=
  if d.attempts < d.maxRetries then
    ({ d with nextRetry := now + d.attempts * 5 }, st, true)
  else
    ({ d with status := "expired" }, incrementStat st "total_failed", false)

/-- `Manager.processDelivery`: one attempt by one worker.  Increments
`Attempts`, serializes the payload, builds the request (content type, user
agent, per-config custom headers, HMAC signature when a secret is
configured, timestamp header), POSTs, and classifies the response:
2xx → `success`; network error or any other status → failure path. -/
def processDelivery (marshal : Payload α → Option (List Nat)) (cfg : Option Config)
    (now : Int) (resp : HTTPResult) (st : Stats) (d : Delivery α) : ProcOut α :=
  let d1 := { d with attempts := d.attempts + 1, lastAttempt := now }
  match marshal d1.payload with
  | none =>
      ⟨{ d1 with status := "failed", error := "Erro ao serializar payload" },
        incrementStat st "total_failed", none, false⟩
  | some payloadBytes =>
      let customHeaders := match cfg with
        | some c => c.headers
        | none => []
      let sigHeaders := match cfg with
        | some c =>
            if c.secret ≠ "" then
              [("X-Webhook-Signature", generateSignature payloadBytes c.secret)]
            else []
        | none => []
      let req : HttpRequest :=
        { headers := [("Content-Type", "application/json"),
                      ("User-Agent", "ZPigo-Webhook/1.0")] ++
                     customHeaders ++ sigHeaders ++
                     [("X-Webhook-Timestamp", toString now)]
          body := payloadBytes }
      match resp with
      | .netErr msg =>
          let hf := handleDeliveryFailure now st { d1 with error := "Erro de rede: " ++ msg }
          ⟨hf.1, hf.2.1, some req, hf.2.2⟩
      | .ok code =>
          if 200 ≤ code ∧ code < 300 then
            ⟨{ d1 with status := "success" }, incrementStat st "total_success",
              some req, false⟩
          else
            let hf := handleDeliveryFailure now st
              { d1 with error := "Status code invalido: " ++ toString code }
            ⟨hf.1, hf.2.1, some req, hf.2.2⟩

/-- Drives one delivery through successive attempts: each scheduled retry
re-enters the queue (modelled with room available, counting
`total_retries` as the resubmission goroutine does) and is picked up by a
worker with the next response in `resps`.  Returns the trace of delivery
states after each attempt together with the final stats. -/
def runAttempts (marshal : Payload α → Option (List Nat)) (cfg : Option Config)
    (now : Int) (st : Stats) (d : Delivery α) :
    List HTTPResult → List (Delivery α) × Stats
  | [] => ([], st)
  | r :: rest =>
      let out := processDelivery marshal cfg now r st d
      if out.wantsRetry then
        let (tr, st') :=
          runAttempts marshal cfg now (incrementStat out.stats "total_retries")
            out.delivery rest
        (out.delivery :: tr, st')
      else
        ([out.delivery], out.stats)

/-- `k` successive `queueDelivery` submissions against the same manager. -/
def submitN (st : ManagerState α) (sessionID : String) (config : Config)
    (eventType : String) (eventData : α) (additionalData : List (String × String))
    (now nowNano : Int) : Nat → ManagerState α
  | 0 => st
  | k + 1 =>
      queueDelivery (submitN st sessionID config eventType eventData additionalData now nowNano k)
        sessionID config eventType eventData additionalData now nowNano

end Webhook

/-! ## Session data model and orchestrator (`internal/db/models`, `internal/meow`,
`internal/repository`) -/

namespace Meow

/-- `models.Session` (the persisted record).  `status` and `proxyType` are
Go string types (`SessionStatus`, `ProxyType`) whose constants are
`"disconnected" | "connecting" | "connected"` and `"http" | "socks5"`;
both can also hold the empty string. -/
structure GoSession where
  id : String
  name : String
  phone : String
  status : String
  qrCode : String
  deviceJid : String
  proxyHost : String
  proxyPort : Int
  proxyType : String
  proxyUser : String
  proxyPass : String
  createdAt : Int
  updatedAt : Int
  connectedAt : Option Int
deriving Repr, DecidableEq

/-- `Session.HasProxy`. -/
def hasProxy (s : GoSession) : Bool :=
  s.proxyHost ≠ "" && s.proxyPort > 0

/-- Wrap an `int` into `int32` range, as Go's `rune(n)` conversion does. -/
def int32wrap (n : Int) : Int := (n + 2147483648) % 4294967296 - 2147483648

/-- Go's `string(r)` for a rune `r`: the UTF-8 of the code point when it is
a valid Unicode scalar value, otherwise the replacement character U+FFFD. -/
def goRuneString (n : Int) : String :=
  let r := int32wrap n
  if 0 ≤ r ∧ (r < 0xd800 ∨ (0xdfff < r ∧ r < 0x110000)) then
    String.singleton (Char.ofNat r.toNat)
  else
    String.singleton (Char.ofNat 0xfffd)

/-- `Session.GetProxyURL`: note the port is rendered with
`string(rune(s.ProxyPort))`, a rune conversion, not decimal formatting. -/
def getProxyURL (s : GoSession) : String :=
  if ¬hasProxy s then "" else
  let protocol := if s.proxyType = "" then "http" else s.proxyType
  if s.proxyUser ≠ "" && s.proxyPass ≠ "" then
    protocol ++ "://" ++ s.proxyUser ++ ":" ++ s.proxyPass ++ "@" ++
      s.proxyHost ++ ":" ++ goRuneString s.proxyPort
  else
    protocol ++ "://" ++ s.proxyHost ++ ":" ++ goRuneString s.proxyPort

/-- Everything `GetProxyURL` emits before the final `":" + port`: scheme,
optional credentials, host.  A specification-side decomposition used to
state where the port lands in the returned URL. -/
def proxyURLStem (s : GoSession) : String :=
  (if s.proxyType = "" then "http" else s.proxyType) ++ "://" ++
    (if s.proxyUser ≠ "" && s.proxyPass ≠ "" then
      s.proxyUser ++ ":" ++ s.proxyPass ++ "@"
    else "") ++ s.proxyHost

/-! ### Repository updates (`repository/session.go`)

Each `SessionRepository` update targets one row by id; the embedding
applies the column writes to that row's record.  The `rowsAffected == 0`
not-found path is elided: the claims quantify over the targeted record. -/

/-- `SessionRepository.SetConnected`: writes status `connected`, phone,
device identifier and the connection timestamp. -/
def setConnected (now : Int) (s : GoSession) (phone deviceJid : String) : GoSession :=
  { s with status := "connected", phone := phone, deviceJid := deviceJid
           connectedAt := some now, updatedAt := now }

/-- `SessionRepository.SetDisconnected`: writes status `disconnected` and
clears the QR code, phone and device identifier columns. -/
def setDisconnected (now : Int) (s : GoSession) : GoSession :=
  { s with status := "disconnected", qrCode := "", phone := "", deviceJid := ""
           updatedAt := now }

/-- `SessionRepository.UpdateStatus`: writes only the status column. -/
def updateStatus (now : Int) (s : GoSession) (status : String) : GoSession :=
  { s with status := status, updatedAt := now }

/-- `SessionRepository.UpdateQRCode`: writes only the QR-code column. -/
def updateQRCode (now : Int) (s : GoSession) (qrCode : String) : GoSession :=
  { s with qrCode := qrCode, updatedAt := now }

/-! ### Session registry (`meow/manager.go`) -/

/-- The concurrency-safe map `whatsmeowClients`, keyed by session id; the
handle type is abstract. -/
abbrev Registry (H : Type) := String → Option H

def mapSet (m : String → Option H) (k : String) (v : H) : String → Option H :=
  fun x => if x = k then some v else m x

/-- `SessionManager.CreateSession` (registry effect): fails when the id is
already present, otherwise registers a freshly created client handle. -/
def createSession (reg : Registry H) (sessionID : String) (fresh : H) :
    Registry H × Except String H :=
  match reg sessionID with
  | some _ => (reg, Except.error ("sessão " ++ sessionID ++ " já existe"))
  | none => (mapSet reg sessionID fresh, Except.ok fresh)

/-- `SessionManager.SetWhatsmeowClient`: unconditional map assignment. -/
def setWhatsmeowClient (reg : Registry H) (sessionID : String) (client : H) :
    Registry H :=
  mapSet reg sessionID client

/-! ### Pairing flow (`SessionManager.handleQREvents`) -/

/-- The live client's store identity (`client.Store.ID`): `user` is the
`User` part, `str` is what `ID.String()` renders. -/
structure StoreID where
  user : String
  str : String
deriving Repr, DecidableEq

/-- The runtime connection handle as the pairing flow observes it. -/
structure ClientInfo where
  connected : Bool
  storeID : Option StoreID
deriving Repr, DecidableEq

/-- State threaded through one pairing flow: the session's persisted
record and the registry's view of its client. -/
structure QRFlowState where
  session : GoSession
  client : Option ClientInfo
deriving Repr, DecidableEq

/-- One item of the `whatsmeow.QRChannelItem` stream. -/
inductive QREvent where
  | code (c : String)
  | timeout
  | success
  | other (name : String)
deriving Repr, DecidableEq

def QREvent.isSuccess : QREvent → Bool
  | .success => true
  | _ => false

/-- The `if client, exists := sm.GetSession(...); exists && client.IsConnected()
{ client.Disconnect() }` fragment of the timeout / channel-close paths. -/
def disconnectIfOpen (st : QRFlowState) : QRFlowState :=
  match st.client with
  | some c => if c.connected then { st with client := some { c with connected := false } } else st
  | none => st

/-- The success arm's identity extraction: device JID and phone (the part
of `Store.ID.User` before `":"`) default to `""` when the registry has no
client or the store has no identity. -/
def qrSuccessIdentity (client : Option ClientInfo) : String × String :=
  match client with
  | some c =>
      match c.storeID with
      | some sid =>
          (sid.str, if sid.user ≠ "" then (sid.user.splitOn ":").headD "" else "")
      | none => ("", "")
  | none => ("", "")

/-- One event of `handleQREvents`' `for evt := range qrChan` loop.
`qrImg` abstracts `qrcode.Encode` + base64 (the external QR image
pipeline); `none` is its error path, which skips the persistence step.
Returns the new state and whether the arm `return`s (terminates the flow). -/
def qrStep (qrImg : String → Option String) (now : Int) (st : QRFlowState) :
    QREvent → QRFlowState × Bool
  | .code c =>
      match qrImg c with
      | none => (st, false)
      | some b64 =>
          ({ st with session := updateQRCode now st.session ("data:image/png;base64," ++ b64) },
            false)
  | .timeout =>
      (disconnectIfOpen { st with session := setDisconnected now st.session }, true)
  | .success =>
      let ids := qrSuccessIdentity st.client
      ({ st with session := updateQRCode now (setConnected now st.session ids.2 ids.1) "" },
        false)
  | .other _ => (st, false)

/-- `SessionManager.handleQREvents`: consume the stream; when the channel
closes without a success having been seen, persist `disconnected` and
close the connection if still open, exactly as the timeout arm does. -/
def handleQREvents (qrImg : String → Option String) (now : Int) (st : QRFlowState)
    (wasSuccessful : Bool) : List QREvent → QRFlowState
  | [] =>
      if wasSuccessful then st
      else disconnectIfOpen { st with session := setDisconnected now st.session }
  | e :: rest =>
      let step := qrStep qrImg now st e
      if step.2 then step.1
      else handleQREvents qrImg now step.1 (wasSuccessful || e.isSuccess) rest

/-! ### Reconnection supervisor (`SessionManager.reconnectSession`) -/

/-- `reconnectSession`'s effect on the persisted record.  The five booleans
are the outcomes of its guards in source order: registry already has the
id (skip), `types.ParseJID` success, device found in durable storage,
device store carries an ID, and `client.Connect()` success.  Returns the
persisted record and whether a new handle was registered. -/
def reconnectSession (sessionExists parseOk deviceFound storeHasID connectOk : Bool)
    (now : Int) (s : GoSession) : GoSession × Bool :=
  if sessionExists then (s, false)
  else if ¬parseOk then (updateStatus now s "disconnected", false)
  else if ¬deviceFound then (setDisconnected now s, false)
  else if ¬storeHasID then (updateStatus now s "disconnected", false)
  else if ¬connectOk then (updateStatus now s "disconnected", false)
  else (s, true)

/-! ### Session info cache (`meow/cache.go`, `meow/utils.go`) -/

/-- `meow.SessionInfo`: the denormalized cache entry. -/
structure SessionInfo where
  id : String
  name : String
  jid : String
  webhook : String
  apiKey : String
  events : String
  proxy : String
  qrCode : String
  phone : String
  status : String
deriving Repr, DecidableEq

/-- `SessionInfo.Set`: the string-keyed field update.  Only the exact keys
of the switch match; any other key (including `"JID"` and `"QRCode"`) is
silently ignored. -/
def sessionInfoSet (s : SessionInfo) (key value : String) : SessionInfo :=
  if key = "Id" then { s with id := value }
  else if key = "Name" then { s with name := value }
  else if key = "Jid" then { s with jid := value }
  else if key = "Webhook" then { s with webhook := value }
  else if key = "APIKey" then { s with apiKey := value }
  else if key = "Events" then { s with events := value }
  else if key = "Proxy" then { s with proxy := value }
  else if key = "Qrcode" then { s with qrCode := value }
  else if key = "Phone" then { s with phone := value }
  else if key = "Status" then { s with status := value }
  else s

/-- The cache contents, keyed by `credential:session-id`. -/
abbrev CacheState := String → Option SessionInfo

/-- `BuildCacheKey` (utils.go). -/
def buildCacheKey (apiKey sessionID : String) : String :=
  apiKey ++ ":" ++ sessionID

/-- `CacheManager.GetSessionInfo`. -/
def cacheGet (c : CacheState) (key : String) : Option SessionInfo := c key

/-- `CacheManager.SetSessionInfo`. -/
def cacheSet (c : CacheState) (key : String) (info : SessionInfo) : CacheState :=
  fun x => if x = key then some info else c x

/-- `CacheManager.UpdateSessionInfo`: field update on the entry when
present; reports whether an entry was found. -/
def cacheUpdate (c : CacheState) (key field value : String) : CacheState × Bool :=
  match cacheGet c key with
  | some info => (cacheSet c key (sessionInfoSet info field value), true)
  | none => (c, false)

/-- `SessionManager.LogoutSessionByAPIKey`: look up the client and the
cache entry, call the protocol client's `Logout` (outcome `logoutOk`),
then update the cache entry's status and attempt to clear its JID and
QR code — with the keys `"JID"` and `"QRCode"`. -/
def logoutSessionByAPIKey (registryHasClient logoutOk : Bool) (cache : CacheState)
    (apiKey sessionID : String) : Except String CacheState :=
  if ¬registryHasClient then Except.error ("sessão não encontrada: " ++ sessionID)
  else
    let cacheKey := buildCacheKey apiKey sessionID
    match cacheGet cache cacheKey with
    | none => Except.error ("sessão não autorizada: " ++ sessionID)
    | some _ =>
        if ¬logoutOk then Except.error "erro ao fazer logout"
        else
          let c1 := (cacheUpdate cache cacheKey "Status" "disconnected").1
          let c2 := (cacheUpdate c1 cacheKey "JID" "").1
          let c3 := (cacheUpdate c2 cacheKey "QRCode" "").1
          Except.ok c3

/-! ### Event dispatcher (`meow/client.go`: `ZPigoClient.EventHandler`) -/

/-- The protocol events classified by `EventHandler`'s type switch.
Constructors carry the fields the dispatcher reads for its cache updates;
events whose handlers only populate the outbound postmap (the message /
receipt / presence / group / contact / profile families) are represented
without their payload fields, since `callWebhook` — the postmap's only
consumer — discards them after logging. -/
inductive WAEvent where
  | connected
  | disconnected
  | pairSuccess (jid : String)
  | pairError (errMsg jid : String)
  | qr (codes : List String)
  | loggedOut (reason : Int) (reasonName : String)
  | streamReplaced
  | streamError (code : String)
  | connectFailure (reason message : String)
  | clientOutdated
  | temporaryBan (code : Int) (expire : String)
  | message
  | fbMessage
  | receipt
  | undecryptableMessage
  | presence
  | chatPresence
  | groupInfo
  | joinedGroup
  | contact
  | pushName
  | businessName
  | picture
  | unknown (typeName : String)
deriving Repr, DecidableEq

/-- The event-type string each switch arm assigns (the `webhook.EventType`
constants); `none` is the `default` arm, which logs and returns early. -/
def classify : WAEvent → Option String
  | .connected => some "Connected"
  | .disconnected => some "Disconnected"
  | .pairSuccess _ => some "PairSuccess"
  | .pairError _ _ => some "PairError"
  | .qr _ => some "QR"
  | .loggedOut _ _ => some "LoggedOut"
  | .streamReplaced => some "StreamReplaced"
  | .streamError _ => some "StreamError"
  | .connectFailure _ _ => some "ConnectFailure"
  | .clientOutdated => some "ClientOutdated"
  | .temporaryBan _ _ => some "TemporaryBan"
  | .message => some "Message"
  | .fbMessage => some "FBMessage"
  | .receipt => some "Receipt"
  | .undecryptableMessage => some "UndecryptableMessage"
  | .presence => some "Presence"
  | .chatPresence => some "ChatPresence"
  | .groupInfo => some "GroupInfo"
  | .joinedGroup => some "JoinedGroup"
  | .contact => some "Contact"
  | .pushName => some "PushName"
  | .businessName => some "BusinessName"
  | .picture => some "Picture"
  | .unknown _ => none

/-- A postmap value (`map[string]interface{}` entries). -/
inductive PostVal where
  | str (s : String)
  | int (i : Int)
  | raw (e : WAEvent)
deriving Repr, DecidableEq

/-- `ZPigoClient`'s dispatcher-relevant runtime state. -/
structure ZClientState where
  sessionID : String
  apiKey : String
  isActive : Bool
  subscriptions : List String
  connectedAt : Option Int
deriving Repr, DecidableEq

/-- `ZPigoClient.shouldSendEvent` on the client's subscription list. -/
def clientShouldSendEvent (subs : List String) (eventType : String) : Bool :=
  if subs.isEmpty then false
  else subs.any (fun sub => sub = "All" || sub = eventType)

/-- `ZPigoClient.SetActive`. -/
def setActive (now : Int) (zc : ZClientState) (active : Bool) : ZClientState :=
  if active then { zc with isActive := true, connectedAt := some now }
  else { zc with isActive := false, connectedAt := none }

/-- `ZPigoClient.UpdateSessionInfo`: cache field update under the client's
`apiKey:sessionID` key. -/
def updateClientSessionInfo (zc : ZClientState) (cache : Meow.CacheState)
    (key value : String) : Meow.CacheState :=
  (Meow.cacheUpdate cache (Meow.buildCacheKey zc.apiKey zc.sessionID) key value).1

/-- The `handle*Event` side effects of each dispatcher arm on the client
state and the session info cache (postmap population elided, as above).
Note `handleLoggedOutEvent` uses the matching keys `"Jid"`/`"Qrcode"`,
and its `"LogoutReason"` key matches no `SessionInfo.Set` case. -/
def applyEventEffects (now : Int) (zc : ZClientState) (cache : Meow.CacheState) :
    WAEvent → ZClientState × Meow.CacheState
  | .connected =>
      let zc1 := setActive now zc true
      (zc1, updateClientSessionInfo zc1 cache "Status" "connected")
  | .disconnected =>
      let zc1 := setActive now zc false
      (zc1, updateClientSessionInfo zc1 cache "Status" "disconnected")
  | .pairSuccess jid =>
      (zc, if jid ≠ "" then updateClientSessionInfo zc cache "Jid" jid else cache)
  | .qr codes =>
      (zc, match codes with
           | c :: _ => updateClientSessionInfo zc cache "Qrcode" c
           | [] => cache)
  | .loggedOut reason reasonName =>
      let zc1 := setActive now zc false
      let c1 := updateClientSessionInfo zc1 cache "Status" "disconnected"
      let c2 := updateClientSessionInfo zc1 c1 "Jid" ""
      let c3 := updateClientSessionInfo zc1 c2 "Qrcode" ""
      (zc1, if reason ≠ 0 then updateClientSessionInfo zc1 c3 "LogoutReason" reasonName else c3)
  | .streamReplaced =>
      let zc1 := setActive now zc false
      (zc1, updateClientSessionInfo zc1 cache "Status" "stream_replaced")
  | _ => (zc, cache)

/-- `ZPigoClient.callWebhook`: reads the postmap's `"type"`, filters the
event data out of the postmap, logs "Webhook preparado para envio" — and
returns.  It builds no `Delivery` and performs no submission to the
webhook manager, whose state it leaves untouched.  The prepared
`(eventType, eventData)` pair it logs is returned alongside. -/
def callWebhook (postmap : List (String × PostVal)) (wm : Webhook.ManagerState β) :
    Webhook.ManagerState β × Option (String × List (String × PostVal)) :=
  match postmap.lookup "type" with
  | some (.str eventTypeStr) =>
      let eventData := postmap.filter
        (fun kv => kv.1 ≠ "type" && kv.1 ≠ "sessionId" && kv.1 ≠ "timestamp")
      (wm, some (eventTypeStr, eventData))
  | _ => (wm, none)

/-- `ZPigoClient.EventHandler`: drop events of inactive clients, classify,
apply the per-event cache/state effects, and when the session subscribes
to the event (or the wildcard), hand the postmap to `callWebhook` in a
goroutine.  Returns the client state, the cache, and the webhook
manager's state after dispatch. -/
def eventHandler (now : Int) (zc : ZClientState) (cache : Meow.CacheState)
    (wm : Webhook.ManagerState β) (rawEvt : WAEvent) :
    ZClientState × Meow.CacheState × Webhook.ManagerState β :=
  if ¬zc.isActive then (zc, cache, wm)
  else
    match classify rawEvt with
    | none => (zc, cache, wm)
    | some eventType =>
        let effects := applyEventEffects now zc cache rawEvt
        if clientShouldSendEvent zc.subscriptions eventType then
          let postmap := [("event", PostVal.raw rawEvt),
                          ("sessionId", PostVal.str zc.sessionID),
                          ("timestamp", PostVal.int now),
                          ("type", PostVal.str eventType)]
          (effects.1, effects.2, (callWebhook postmap wm).1)
        else
          (effects.1, effects.2, wm)

end Meow

/-! ## Concrete instances used by counterexamples and witnesses -/

/-- An `ok` webhook configuration (validated shape, wildcard subscription). -/
def cfgSample : Webhook.Config :=
  { url := "http://example.com/hook", events := ["All"], headers := []
    timeout := 10000000000, maxRetries := 2, retryDelay := 5000000000
    enabled := true, secret := "" }

/-- A freshly queued delivery for session `s1` with `maxRetries = 2`
(the fields `queueDelivery` writes). -/
def deliverySample : Webhook.Delivery Unit :=
  { id := "s1-0", sessionId := "s1", url := "http://example.com/hook"
    payload := { type := "Message", sessionId := "s1", timestamp := 0
                 event := (), data := [] }
    attempts := 0, maxRetries := 2, lastAttempt := 0, nextRetry := 0
    status := "pending", error := "" }

/-- A trivial `json.Marshal` stand-in producing the body `"{}"`. -/
def marshalConst : Webhook.Payload Unit → Option (List Nat) :=
  fun _ => some [123, 125]

/-- A webhook manager whose bounded queue has capacity 2 and no traffic yet. -/
def wmCap2 : Webhook.ManagerState Unit :=
  { configs := fun _ => none, globalConfig := none, queue := []
    capacity := 2, stats := Webhook.Stats.zero }

/-- An idle webhook manager as `NewManager` builds it (capacity 1000). -/
def wmSample : Webhook.ManagerState Unit :=
  { configs := fun _ => none, globalConfig := none, queue := []
    capacity := 1000, stats := Webhook.Stats.zero }

/-- An active dispatcher client subscribed to the wildcard. -/
def zcSample : Meow.ZClientState :=
  { sessionID := "s1", apiKey := "key1", isActive := true
    subscriptions := ["All"], connectedAt := some 0 }

/-- The empty session info cache. -/
def cacheEmpty : Meow.CacheState := fun _ => none

/-- A cache entry as it stands for an authenticated session, before logout. -/
def infoPre : Meow.SessionInfo :=
  { id := "s1", name := "main", jid := "5511999999999:1@s.whatsapp.net"
    webhook := "", apiKey := "key1", events := "All", proxy := ""
    qrCode := "data:image/png;base64,QR", phone := "5511999999999"
    status := "connected" }

/-- A cache holding `infoPre` under the key `key1:s1`. -/
def cachePre : Meow.CacheState :=
  Meow.cacheSet cacheEmpty (Meow.buildCacheKey "key1" "s1") infoPre

/-- A persisted session mid-pairing: `connecting`, QR issued, no device. -/
def sessConnecting : Meow.GoSession :=
  { id := "s1", name := "main", phone := "", status := "connecting"
    qrCode := "data:image/png;base64,QR", deviceJid := "", proxyHost := ""
    proxyPort := 0, proxyType := "", proxyUser := "", proxyPass := ""
    createdAt := 0, updatedAt := 0, connectedAt := none }

/-- A persisted session that completed pairing: `connected` with a device. -/
def sessConnected : Meow.GoSession :=
  { sessConnecting with
    status := "connected"
    qrCode := ""
    deviceJid := "5511999999999:1@s.whatsapp.net"
    phone := "5511999999999"
    connectedAt := some 0 }

/-- A registry holding handle `0` for session `s1`. -/
def regOne : Meow.Registry Nat := Meow.mapSet (fun _ => none) "s1" 0

/-- A session whose proxy host itself contains the digits of its port. -/
def sessProxyHost10 : Meow.GoSession :=
  { sessConnecting with proxyHost := "10.0.0.1", proxyPort := 10, proxyType := "http" }

/-- A SOCKS5 proxy session with a four-digit port. -/
def sessProxy8080 : Meow.GoSession :=
  { sessConnecting with
    proxyHost := "proxy.example.com"
    proxyPort := 8080
    proxyType := "socks5" }

/-- The session invariant claimed in the spec: persisted status is
`connected` exactly when the persisted device identifier is non-empty. -/
def sessionStatusIffDevice (s : Meow.GoSession) : Prop :=
  s.status = "connected" ↔ s.deviceJid ≠ ""

instance (s : Meow.GoSession) : Decidable (sessionStatusIffDevice s) :=
  inferInstanceAs (Decidable (_ ↔ _))

/-! ## Helper lemmas -/

/-- `callWebhook` never touches the webhook manager's state. -/
theorem callWebhook_fst (pm : List (String × Meow.PostVal))
    (wm : Webhook.ManagerState β) : (Meow.callWebhook pm wm).1 = wm := by
  unfold Meow.callWebhook
  split <;> rfl

/-! ## Claims -/

/-- C1: for every protocol event the dispatcher classifies for an active
session whose subscriptions contain the event name or the wildcard, the
webhook manager's state — its queue and its submitted counter included —
is left exactly as it was: `callWebhook` logs the prepared payload and
never submits a delivery, so the claimed submission to the Webhook
Delivery Engine never happens.  This refutes the claim for every such
event (the spec describes the evident intent of `callWebhook`; the code
stops at the log line). -/
theorem eventDispatcher_submits_nothing {β : Type} (now : Int)
    (zc : Meow.ZClientState) (cache : Meow.CacheState)
    (wm : Webhook.ManagerState β) (evt : Meow.WAEvent) (etype : String)
    (hclass : Meow.classify evt = some etype)
    (hactive : zc.isActive = true)
    (hsub : Meow.clientShouldSendEvent zc.subscriptions etype = true) :
    (Meow.eventHandler now zc cache wm evt).2.2 = wm := by
  unfold Meow.eventHandler
  rw [hclass]
  simp [hactive, hsub, callWebhook_fst]

/-- Witness for C1 at a concrete input: an active client subscribed to the
wildcard receives a `Connected` event; the webhook manager is unchanged. -/
theorem eventDispatcher_submits_nothing_witness :
    Meow.classify Meow.WAEvent.connected = some "Connected" ∧
    zcSample.isActive = true ∧
    Meow.clientShouldSendEvent zcSample.subscriptions "Connected" = true ∧
    (Meow.eventHandler 0 zcSample cacheEmpty wmSample Meow.WAEvent.connected).2.2 = wmSample :=
  ⟨rfl, rfl, by decide,
    eventDispatcher_submits_nothing 0 zcSample cacheEmpty wmSample
      Meow.WAEvent.connected "Connected" rfl rfl (by decide)⟩

/-- C5 counterexample: with handle `0` registered for `s1`,
`SetWhatsmeowClient` registers handle `1` for the same id — it does not
fail, and it silently replaces the existing handle, so "registering a
handle for an id that already has one always fails ... and never replaces
the existing handle" is false as stated. -/
theorem setWhatsmeowClient_replaces_counterexample :
    regOne "s1" = some 0 ∧
    Meow.setWhatsmeowClient regOne "s1" 1 "s1" = some 1 := by
  constructor <;> rfl

/-- C5 amended: `CreateSession` — the registration operation of the
public create path — always fails with the already-exists error when a
handle is registered for the id, leaves the registry untouched and keeps
the existing handle; `SetWhatsmeowClient`, used by the reconnection path
after its own absence check, replaces unconditionally. -/
theorem createSession_alreadyExists {H : Type} (reg : Meow.Registry H)
    (id : String) (h0 : H) (fresh : H) (hexists : reg id = some h0) :
    (Meow.createSession reg id fresh).2 =
      Except.error ("sessão " ++ id ++ " já existe") ∧
    (Meow.createSession reg id fresh).1 = reg ∧
    (Meow.createSession reg id fresh).1 id = some h0 := by
  unfold Meow.createSession
  rw [hexists]
  exact ⟨rfl, rfl, hexists⟩

/-- Witness for C5's amended theorem at the concrete registry `regOne`. -/
theorem createSession_alreadyExists_witness :
    regOne "s1" = some 0 ∧
    (Meow.createSession regOne "s1" 7).2 =
      Except.error ("sessão " ++ "s1" ++ " já existe") ∧
    (Meow.createSession regOne "s1" 7).1 = regOne ∧
    (Meow.createSession regOne "s1" 7).1 "s1" = some 0 :=
  ⟨rfl, (createSession_alreadyExists regOne "s1" 0 7 rfl).1,
    (createSession_alreadyExists regOne "s1" 0 7 rfl).2.1,
    (createSession_alreadyExists regOne "s1" 0 7 rfl).2.2⟩

/-- C6: evaluating `LogoutSessionByAPIKey` at its failing input.  A cache
entry holds the pre-logout JID and QR code; after a successful logout the
entry's status is `disconnected`, but the JID and QR-code fields still
hold the pre-logout authentication values: the clearing calls use the
keys `"JID"` and `"QRCode"`, which match no case of `SessionInfo.Set`
(whose keys are `"Jid"` and `"Qrcode"`), and are silent no-ops.  The
claim states the intent the code itself shows elsewhere
(`handleLoggedOutEvent` clears with the matching keys); the code is in
error here. -/
theorem logoutByAPIKey_stale_cache :
    ∃ c, Meow.logoutSessionByAPIKey true true cachePre "key1" "s1" = Except.ok c ∧
      Meow.cacheGet c (Meow.buildCacheKey "key1" "s1") =
        some { infoPre with status := "disconnected" } ∧
      infoPre.jid = "5511999999999:1@s.whatsapp.net" ∧
      infoPre.qrCode = "data:image/png;base64,QR" :=
  ⟨_, rfl, by decide, rfl, rfl⟩

/-- C4 counterexample: with a queue of capacity 2 and all workers blocked
(no dequeues), three submissions enqueue two deliveries and drop the
third — but the drop leaves the statistics exactly as they were after two
submissions: no rejected/failed counter exists on that path, so "a
drop/rejected counter is incremented" is false as stated. -/
theorem queueFull_drop_no_counter_counterexample :
    (Webhook.submitN wmCap2 "s1" cfgSample "Message" () [] 0 0 3).queue.length = 2 ∧
    (Webhook.submitN wmCap2 "s1" cfgSample "Message" () [] 0 0 3).queue =
      (Webhook.submitN wmCap2 "s1" cfgSample "Message" () [] 0 0 2).queue ∧
    (Webhook.submitN wmCap2 "s1" cfgSample "Message" () [] 0 0 3).stats =
      (Webhook.submitN wmCap2 "s1" cfgSample "Message" () [] 0 0 2).stats ∧
    (Webhook.submitN wmCap2 "s1" cfgSample "Message" () [] 0 0 3).stats =
      { totalSent := 2, totalSuccess := 0, totalFailed := 0, totalRetries := 0 } := by
  decide

/-- Queue/statistics shape after `k` submissions into an initially idle
manager: the queue holds `min k capacity` deliveries, `total_sent` counts
exactly the enqueued ones, and no other counter moves. -/
theorem submitN_queue_stats {α : Type} (st : Webhook.ManagerState α)
    (sessionID : String) (config : Webhook.Config) (etype : String) (ed : α)
    (ad : List (String × String)) (now nn : Int)
    (hq : st.queue = []) (hs : st.stats = Webhook.Stats.zero) (k : Nat) :
    (Webhook.submitN st sessionID config etype ed ad now nn k).queue.length =
      min k st.capacity ∧
    (Webhook.submitN st sessionID config etype ed ad now nn k).stats =
      { totalSent := min k st.capacity, totalSuccess := 0
        totalFailed := 0, totalRetries := 0 } ∧
    (Webhook.submitN st sessionID config etype ed ad now nn k).capacity =
      st.capacity := by
  induction k with
  | zero =>
      refine ⟨?_, ?_, rfl⟩
      · simp [Webhook.submitN, hq]
      · simp [Webhook.submitN, hs, Webhook.Stats.zero]
  | succ k ih =>
      obtain ⟨ihq, ihs, ihc⟩ := ih
      have hstep : Webhook.submitN st sessionID config etype ed ad now nn (k + 1) =
          Webhook.queueDelivery
            (Webhook.submitN st sessionID config etype ed ad now nn k)
            sessionID config etype ed ad now nn := rfl
      rw [hstep]
      simp only [Webhook.queueDelivery]
      by_cases hk : k < st.capacity
      · rw [if_pos (by rw [ihq, ihc]; omega)]
        refine ⟨?_, ?_, ihc⟩
        · simp only [List.length_append, List.length_singleton, ihq]
          omega
        · rw [ihs]
          have hmin : min k st.capacity + 1 = min (k + 1) st.capacity := by omega
          simp only [Webhook.incrementStat, reduceIte]
          rw [hmin]
      · rw [if_neg (by rw [ihq, ihc]; omega)]
        have hmin : min k st.capacity = min (k + 1) st.capacity := by omega
        rw [← hmin]
        exact ⟨ihq, ihs, ihc⟩

/-- C4 amended: submission is non-blocking; a submission against a full
queue is dropped with only a log line — no statistics counter changes.
With queue capacity `N` and `N + 1` submissions while all workers are
blocked, exactly one submission is dropped (the queue holds `N`) and the
dropped submission leaves the manager's entire state, counters included,
identical to its state after the `N`-th submission. -/
theorem queueFull_drop_silent {α : Type} (st : Webhook.ManagerState α)
    (sessionID : String) (config : Webhook.Config) (etype : String) (ed : α)
    (ad : List (String × String)) (now nn : Int)
    (hq : st.queue = []) (hs : st.stats = Webhook.Stats.zero) :
    (Webhook.submitN st sessionID config etype ed ad now nn (st.capacity + 1)).queue.length =
      st.capacity ∧
    (Webhook.submitN st sessionID config etype ed ad now nn (st.capacity + 1)).stats =
      { totalSent := st.capacity, totalSuccess := 0
        totalFailed := 0, totalRetries := 0 } ∧
    Webhook.submitN st sessionID config etype ed ad now nn (st.capacity + 1) =
      Webhook.submitN st sessionID config etype ed ad now nn st.capacity := by
  obtain ⟨hqN, hsN, hcN⟩ :=
    submitN_queue_stats st sessionID config etype ed ad now nn hq hs st.capacity
  have hdrop : Webhook.submitN st sessionID config etype ed ad now nn (st.capacity + 1) =
      Webhook.submitN st sessionID config etype ed ad now nn st.capacity := by
    have hstep : Webhook.submitN st sessionID config etype ed ad now nn (st.capacity + 1) =
        Webhook.queueDelivery
          (Webhook.submitN st sessionID config etype ed ad now nn st.capacity)
          sessionID config etype ed ad now nn := rfl
    rw [hstep]
    simp only [Webhook.queueDelivery]
    rw [if_neg (by rw [hqN, hcN]; omega)]
  refine ⟨?_, ?_, hdrop⟩
  · rw [hdrop, hqN]; omega
  · rw [hdrop, hsN]
    have : min st.capacity st.capacity = st.capacity := by omega
    rw [this]

/-- Witness for C4's amended theorem: capacity 2, three submissions. -/
theorem queueFull_drop_silent_witness :
    wmCap2.queue = [] ∧ wmCap2.stats = Webhook.Stats.zero ∧
    ((Webhook.submitN wmCap2 "s1" cfgSample "Message" () [] 0 0 (wmCap2.capacity + 1)).queue.length =
        wmCap2.capacity ∧
      (Webhook.submitN wmCap2 "s1" cfgSample "Message" () [] 0 0 (wmCap2.capacity + 1)).stats =
        { totalSent := wmCap2.capacity, totalSuccess := 0
          totalFailed := 0, totalRetries := 0 } ∧
      Webhook.submitN wmCap2 "s1" cfgSample "Message" () [] 0 0 (wmCap2.capacity + 1) =
        Webhook.submitN wmCap2 "s1" cfgSample "Message" () [] 0 0 wmCap2.capacity) :=
  ⟨rfl, rfl, queueFull_drop_silent wmCap2 "s1" cfgSample "Message" () [] 0 0 rfl rfl⟩

/-- C2 counterexample: two reachable transitions break the
connected-iff-device invariant.  (a) The pairing flow's success arm with
no client in the registry persists `connected` with an empty device
identifier (`SetConnected("", "")`).  (b) `reconnectSession`, failing to
parse the stored device identifier, persists via `UpdateStatus`, which
writes only the status column: the record ends `disconnected` while its
device identifier is still non-empty. -/
theorem session_invariant_counterexample :
    ¬ sessionStatusIffDevice
        ((Meow.qrStep (fun _ => none) 0 ⟨sessConnecting, none⟩ Meow.QREvent.success).1.session) ∧
    ¬ sessionStatusIffDevice
        (Meow.reconnectSession false false true true true 0 sessConnected).1 := by
  decide

/-- C2 amended: the connected-iff-device invariant holds after
`SetConnected` whenever the written device identifier is non-empty, holds
unconditionally after `SetDisconnected`, is preserved by the QR-code
persistence step, and holds after the pairing success transition whenever
the registry holds the session's client and its store identity renders a
non-empty string.  (The reconnection failure paths, which persist via
`UpdateStatus` and keep the old device identifier, and a success with no
registered client are exactly the transitions for which it can fail.) -/
theorem session_invariant_amended (now : Int) (s : Meow.GoSession)
    (phone jid qr : String) (c : Meow.ClientInfo) (sid : Meow.StoreID)
    (qrImg : String → Option String)
    (hjid : jid ≠ "") (hc : c.storeID = some sid) (hsid : sid.str ≠ "") :
    sessionStatusIffDevice (Meow.setConnected now s phone jid) ∧
    sessionStatusIffDevice (Meow.setDisconnected now s) ∧
    (sessionStatusIffDevice s → sessionStatusIffDevice (Meow.updateQRCode now s qr)) ∧
    sessionStatusIffDevice
      ((Meow.qrStep qrImg now ⟨s, some c⟩ Meow.QREvent.success).1.session) := by
  refine ⟨?_, ?_, ?_, ?_⟩
  · simp [sessionStatusIffDevice, Meow.setConnected, hjid]
  · simp [sessionStatusIffDevice, Meow.setDisconnected]
  · intro h
    simpa [sessionStatusIffDevice, Meow.updateQRCode] using h
  · simp [sessionStatusIffDevice, Meow.qrStep, Meow.qrSuccessIdentity, hc,
      Meow.updateQRCode, Meow.setConnected, hsid]

/-- Witness for C2's amended theorem at a concrete paired client. -/
theorem session_invariant_amended_witness :
    ("5511999999999:1@s.whatsapp.net" : String) ≠ "" ∧
    (Meow.ClientInfo.mk true
        (some ⟨"5511999999999:1", "5511999999999:1@s.whatsapp.net"⟩)).storeID =
      some ⟨"5511999999999:1", "5511999999999:1@s.whatsapp.net"⟩ ∧
    (sessionStatusIffDevice
        (Meow.setConnected 0 sessConnecting "5511999999999" "5511999999999:1@s.whatsapp.net") ∧
      sessionStatusIffDevice (Meow.setDisconnected 0 sessConnecting) ∧
      (sessionStatusIffDevice sessConnecting →
        sessionStatusIffDevice (Meow.updateQRCode 0 sessConnecting "qr")) ∧
      sessionStatusIffDevice
        ((Meow.qrStep (fun _ => none) 0
            ⟨sessConnecting,
              some (Meow.ClientInfo.mk true
                (some ⟨"5511999999999:1", "5511999999999:1@s.whatsapp.net"⟩))⟩
            Meow.QREvent.success).1.session)) :=
  ⟨by decide, rfl,
    session_invariant_amended 0 sessConnecting "5511999999999"
      "5511999999999:1@s.whatsapp.net" "qr"
      (Meow.ClientInfo.mk true
        (some ⟨"5511999999999:1", "5511999999999:1@s.whatsapp.net"⟩))
      ⟨"5511999999999:1", "5511999999999:1@s.whatsapp.net"⟩
      (fun _ => none) (by decide) rfl (by decide)⟩

/-- C3 counterexample: with `maxRetries = 2` and the endpoint answering
500, 500 and then 200, the delivery is attempted only twice — after the
second failure `attempts < maxRetries` is `2 < 2`, false, so the item is
marked `expired` and the failed counter increments; no third attempt
happens, the success counter stays 0, and the status trace is
`pending → expired`, not `pending → pending → success`. -/
theorem delivery_maxRetries2_expires_counterexample :
    ((Webhook.runAttempts marshalConst (some cfgSample) 0 Webhook.Stats.zero
        deliverySample
        [Webhook.HTTPResult.ok 500, Webhook.HTTPResult.ok 500,
         Webhook.HTTPResult.ok 200]).1.map (fun d => d.status) =
      ["pending", "expired"]) ∧
    ((Webhook.runAttempts marshalConst (some cfgSample) 0 Webhook.Stats.zero
        deliverySample
        [Webhook.HTTPResult.ok 500, Webhook.HTTPResult.ok 500,
         Webhook.HTTPResult.ok 200]).1.map (fun d => d.attempts) = [1, 2]) ∧
    (Webhook.runAttempts marshalConst (some cfgSample) 0 Webhook.Stats.zero
        deliverySample
        [Webhook.HTTPResult.ok 500, Webhook.HTTPResult.ok 500,
         Webhook.HTTPResult.ok 200]).2.totalSuccess = 0 ∧
    (Webhook.runAttempts marshalConst (some cfgSample) 0 Webhook.Stats.zero
        deliverySample
        [Webhook.HTTPResult.ok 500, Webhook.HTTPResult.ok 500,
         Webhook.HTTPResult.ok 200]).2.totalFailed = 1 := by
  decide

/-- C3 amended: the scenario as described — two 500s and then a 200 with
the delivery reaching `success` on its third attempt — holds with
`maxRetries = 3`: the status trace is `pending → pending → success`, the
total attempt count is 3, the success counter increments exactly once and
the failed counter does not increment.  (With the claim's `maxRetries = 2`
the item expires after two attempts, as the counterexample shows.) -/
theorem delivery_maxRetries3_scenario :
    ((Webhook.runAttempts marshalConst (some cfgSample) 0 Webhook.Stats.zero
        { deliverySample with maxRetries := 3 }
        [Webhook.HTTPResult.ok 500, Webhook.HTTPResult.ok 500,
         Webhook.HTTPResult.ok 200]).1.map (fun d => d.status) =
      ["pending", "pending", "success"]) ∧
    ((Webhook.runAttempts marshalConst (some cfgSample) 0 Webhook.Stats.zero
        { deliverySample with maxRetries := 3 }
        [Webhook.HTTPResult.ok 500, Webhook.HTTPResult.ok 500,
         Webhook.HTTPResult.ok 200]).1.map (fun d => d.attempts) = [1, 2, 3]) ∧
    (Webhook.runAttempts marshalConst (some cfgSample) 0 Webhook.Stats.zero
        { deliverySample with maxRetries := 3 }
        [Webhook.HTTPResult.ok 500, Webhook.HTTPResult.ok 500,
         Webhook.HTTPResult.ok 200]).2.totalSuccess = 1 ∧
    (Webhook.runAttempts marshalConst (some cfgSample) 0 Webhook.Stats.zero
        { deliverySample with maxRetries := 3 }
        [Webhook.HTTPResult.ok 500, Webhook.HTTPResult.ok 500,
         Webhook.HTTPResult.ok 200]).2.totalFailed = 0 := by
  decide

/-- The timeout / channel-close cleanup closes the connection when open
and never touches the persisted record. -/
theorem disconnectIfOpen_spec (st : Meow.QRFlowState) :
    (Meow.disconnectIfOpen st).session = st.session ∧
    ∀ c, (Meow.disconnectIfOpen st).client = some c → c.connected = false := by
  rcases st with ⟨sess, _ | c0⟩
  · refine ⟨rfl, ?_⟩
    intro c hc
    cases hc
  · rcases hcon : c0.connected with _ | _
    · refine ⟨by simp [Meow.disconnectIfOpen, hcon], ?_⟩
      intro c hc
      simp [Meow.disconnectIfOpen, hcon] at hc
      rw [← hc]
      exact hcon
    · refine ⟨by simp [Meow.disconnectIfOpen, hcon], ?_⟩
      intro c hc
      simp [Meow.disconnectIfOpen, hcon] at hc
      rw [← hc]

/-- Whenever a timeout event is reached, the flow ends with the record
disconnected, the QR cleared and the connection closed. -/
theorem handleQREvents_timeout (qrImg : String → Option String) (now : Int)
    (evts : List Meow.QREvent) :
    ∀ (st : Meow.QRFlowState) (ws : Bool), Meow.QREvent.timeout ∈ evts →
      (Meow.handleQREvents qrImg now st ws evts).session.status = "disconnected" ∧
      (Meow.handleQREvents qrImg now st ws evts).session.qrCode = "" ∧
      ∀ c, (Meow.handleQREvents qrImg now st ws evts).client = some c →
        c.connected = false := by
  induction evts with
  | nil => intro st ws h; cases h
  | cons e rest ih =>
      intro st ws h
      cases e with
      | timeout =>
          have heq : Meow.handleQREvents qrImg now st ws (Meow.QREvent.timeout :: rest) =
              Meow.disconnectIfOpen
                { st with session := Meow.setDisconnected now st.session } := rfl
          rw [heq]
          obtain ⟨h1, h2⟩ := disconnectIfOpen_spec
            { st with session := Meow.setDisconnected now st.session }
          rw [h1]
          exact ⟨rfl, rfl, h2⟩
      | code c' =>
          have hmem : Meow.QREvent.timeout ∈ rest := by
            cases h with
            | tail _ h => exact h
          rcases hqi : qrImg c' with _ | b64 <;>
            simp only [Meow.handleQREvents, Meow.qrStep, hqi, Bool.or_false,
              Meow.QREvent.isSuccess, if_false] <;>
            exact ih _ _ hmem
      | success =>
          have hmem : Meow.QREvent.timeout ∈ rest := by
            cases h with
            | tail _ h => exact h
          simp only [Meow.handleQREvents, Meow.qrStep, Meow.QREvent.isSuccess,
            Bool.or_true, if_false]
          exact ih _ _ hmem
      | other name =>
          have hmem : Meow.QREvent.timeout ∈ rest := by
            cases h with
            | tail _ h => exact h
          simp only [Meow.handleQREvents, Meow.qrStep, Meow.QREvent.isSuccess,
            Bool.or_false, if_false]
          exact ih _ _ hmem

/-- When the stream closes with neither a success nor a timeout seen, the
channel-close default applies: disconnected, QR cleared, connection
closed. -/
theorem handleQREvents_close (qrImg : String → Option String) (now : Int)
    (evts : List Meow.QREvent) :
    ∀ (st : Meow.QRFlowState), Meow.QREvent.success ∉ evts →
      Meow.QREvent.timeout ∉ evts →
      (Meow.handleQREvents qrImg now st false evts).session.status = "disconnected" ∧
      (Meow.handleQREvents qrImg now st false evts).session.qrCode = "" ∧
      ∀ c, (Meow.handleQREvents qrImg now st false evts).client = some c →
        c.connected = false := by
  induction evts with
  | nil =>
      intro st _ _
      have heq : Meow.handleQREvents qrImg now st false [] =
          Meow.disconnectIfOpen
            { st with session := Meow.setDisconnected now st.session } := rfl
      rw [heq]
      obtain ⟨h1, h2⟩ := disconnectIfOpen_spec
        { st with session := Meow.setDisconnected now st.session }
      rw [h1]
      exact ⟨rfl, rfl, h2⟩
  | cons e rest ih =>
      intro st hs ht
      have hs' : Meow.QREvent.success ∉ rest := fun hm => hs (List.mem_cons_of_mem _ hm)
      have ht' : Meow.QREvent.timeout ∉ rest := fun hm => ht (List.mem_cons_of_mem _ hm)
      cases e with
      | timeout => exact absurd (List.mem_cons_self _ _) ht
      | success => exact absurd (List.mem_cons_self _ _) hs
      | code c' =>
          rcases hqi : qrImg c' with _ | b64 <;>
            simp only [Meow.handleQREvents, Meow.qrStep, hqi, Bool.or_false,
              Meow.QREvent.isSuccess, if_false] <;>
            exact ih _ hs' ht'
      | other name =>
          simp only [Meow.handleQREvents, Meow.qrStep, Meow.QREvent.isSuccess,
            Bool.or_false, if_false]
          exact ih _ hs' ht'

/-- C7: when the pairing event stream emits a timeout, or closes without
an authentication success, the session record is persisted with status
`disconnected` and the pairing code (QR field) cleared (both written by
`SetDisconnected`), and the underlying connection, when the registry
holds one, is closed. -/
theorem qrFlow_timeout_or_close_disconnects (qrImg : String → Option String)
    (now : Int) (st : Meow.QRFlowState) (evts : List Meow.QREvent)
    (h : Meow.QREvent.timeout ∈ evts ∨ Meow.QREvent.success ∉ evts) :
    (Meow.handleQREvents qrImg now st false evts).session.status = "disconnected" ∧
    (Meow.handleQREvents qrImg now st false evts).session.qrCode = "" ∧
    ∀ c, (Meow.handleQREvents qrImg now st false evts).client = some c →
      c.connected = false := by
  rcases h with h | h
  · exact handleQREvents_timeout qrImg now evts st false h
  · by_cases ht : Meow.QREvent.timeout ∈ evts
    · exact handleQREvents_timeout qrImg now evts st false ht
    · exact handleQREvents_close qrImg now evts st h ht

/-- Witness for C7: code `"ABC123"` issued, then timeout; the record ends
disconnected with QR cleared and the open connection is closed. -/
theorem qrFlow_timeout_witness :
    (Meow.QREvent.timeout ∈ [Meow.QREvent.code "ABC123", Meow.QREvent.timeout] ∨
      Meow.QREvent.success ∉ [Meow.QREvent.code "ABC123", Meow.QREvent.timeout]) ∧
    ((Meow.handleQREvents (fun c => some c) 0
        ⟨sessConnecting, some ⟨true, none⟩⟩ false
        [Meow.QREvent.code "ABC123", Meow.QREvent.timeout]).session.status =
      "disconnected" ∧
    (Meow.handleQREvents (fun c => some c) 0
        ⟨sessConnecting, some ⟨true, none⟩⟩ false
        [Meow.QREvent.code "ABC123", Meow.QREvent.timeout]).session.qrCode = "" ∧
    ∀ c, (Meow.handleQREvents (fun c => some c) 0
        ⟨sessConnecting, some ⟨true, none⟩⟩ false
        [Meow.QREvent.code "ABC123", Meow.QREvent.timeout]).client = some c →
      c.connected = false) :=
  ⟨Or.inl (by decide),
    qrFlow_timeout_or_close_disconnects (fun c => some c) 0
      ⟨sessConnecting, some ⟨true, none⟩⟩
      [Meow.QREvent.code "ABC123", Meow.QREvent.timeout]
      (Or.inl (by decide))⟩

/-- Every `processDelivery` call increments the attempt counter by exactly
one and never changes `maxRetries`. -/
theorem processDelivery_attempts {α : Type}
    (marshal : Webhook.Payload α → Option (List Nat)) (cfg : Option Webhook.Config)
    (now : Int) (resp : Webhook.HTTPResult) (st : Webhook.Stats)
    (d : Webhook.Delivery α) :
    (Webhook.processDelivery marshal cfg now resp st d).delivery.attempts =
      d.attempts + 1 ∧
    (Webhook.processDelivery marshal cfg now resp st d).delivery.maxRetries =
      d.maxRetries := by
  unfold Webhook.processDelivery Webhook.handleDeliveryFailure
  dsimp only
  repeat' split
  all_goals exact ⟨rfl, rfl⟩

/-- A retry is scheduled only while the incremented attempt counter is
still below `maxRetries`. -/
theorem processDelivery_wantsRetry {α : Type}
    (marshal : Webhook.Payload α → Option (List Nat)) (cfg : Option Webhook.Config)
    (now : Int) (resp : Webhook.HTTPResult) (st : Webhook.Stats)
    (d : Webhook.Delivery α)
    (hr : (Webhook.processDelivery marshal cfg now resp st d).wantsRetry = true) :
    d.attempts + 1 < d.maxRetries := by
  revert hr
  unfold Webhook.processDelivery Webhook.handleDeliveryFailure
  dsimp only
  repeat' split
  all_goals intro hr
  all_goals simp_all

/-- Bound carried through the retry loop: starting from a delivery whose
attempt counter is within `maxRetries`, every state in the attempt trace
stays within `maxRetries + 1` attempts. -/
theorem runAttempts_attempts_le {α : Type}
    (marshal : Webhook.Payload α → Option (List Nat)) (cfg : Option Webhook.Config)
    (now : Int) (resps : List Webhook.HTTPResult) :
    ∀ (st : Webhook.Stats) (d : Webhook.Delivery α),
      d.attempts ≤ d.maxRetries →
      ∀ d' ∈ (Webhook.runAttempts marshal cfg now st d resps).1,
        d'.attempts ≤ d.maxRetries + 1 := by
  induction resps with
  | nil =>
      intro st d _ d' hd'
      simp [Webhook.runAttempts] at hd'
  | cons r rest ih =>
      intro st d h d' hd'
      obtain ⟨hatt, hmr⟩ := processDelivery_attempts marshal cfg now r st d
      by_cases hr : (Webhook.processDelivery marshal cfg now r st d).wantsRetry
      · rw [show Webhook.runAttempts marshal cfg now st d (r :: rest) =
            (let out := Webhook.processDelivery marshal cfg now r st d
             if out.wantsRetry then
               let p := Webhook.runAttempts marshal cfg now
                 (Webhook.incrementStat out.stats "total_retries") out.delivery rest
               (out.delivery :: p.1, p.2)
             else ([out.delivery], out.stats)) from rfl] at hd'
        simp only [hr, if_true] at hd'
        rcases List.mem_cons.mp hd' with rfl | hd'
        · omega
        · have hbound := ih (Webhook.incrementStat
              (Webhook.processDelivery marshal cfg now r st d).stats "total_retries")
              (Webhook.processDelivery marshal cfg now r st d).delivery
              (by rw [hatt, hmr]
                  exact le_of_lt (processDelivery_wantsRetry marshal cfg now r st d hr))
              d' hd'
          rw [hmr] at hbound
          omega
      · rw [show Webhook.runAttempts marshal cfg now st d (r :: rest) =
            (let out := Webhook.processDelivery marshal cfg now r st d
             if out.wantsRetry then
               let p := Webhook.runAttempts marshal cfg now
                 (Webhook.incrementStat out.stats "total_retries") out.delivery rest
               (out.delivery :: p.1, p.2)
             else ([out.delivery], out.stats)) from rfl] at hd'
        simp only [hr, if_false] at hd'
        rcases List.mem_singleton.mp hd' with rfl
        omega

/-- Attempt counters increase by exactly one from each trace state to the
next, and the first trace state has one attempt more than the start. -/
theorem runAttempts_chain {α : Type}
    (marshal : Webhook.Payload α → Option (List Nat)) (cfg : Option Webhook.Config)
    (now : Int) (resps : List Webhook.HTTPResult) :
    ∀ (st : Webhook.Stats) (d : Webhook.Delivery α),
      List.Chain' (fun a b => b.attempts = a.attempts + 1)
        (Webhook.runAttempts marshal cfg now st d resps).1 ∧
      ∀ d0, (Webhook.runAttempts marshal cfg now st d resps).1.head? = some d0 →
        d0.attempts = d.attempts + 1 := by
  induction resps with
  | nil =>
      intro st d
      exact ⟨List.chain'_nil, by intro d0 h; cases h⟩
  | cons r rest ih =>
      intro st d
      obtain ⟨hatt, _⟩ := processDelivery_attempts marshal cfg now r st d
      by_cases hr : (Webhook.processDelivery marshal cfg now r st d).wantsRetry
      · rw [show Webhook.runAttempts marshal cfg now st d (r :: rest) =
            (let out := Webhook.processDelivery marshal cfg now r st d
             if out.wantsRetry then
               let p := Webhook.runAttempts marshal cfg now
                 (Webhook.incrementStat out.stats "total_retries") out.delivery rest
               (out.delivery :: p.1, p.2)
             else ([out.delivery], out.stats)) from rfl]
        simp only [hr, if_true]
        obtain ⟨ihc, ihh⟩ := ih (Webhook.incrementStat
            (Webhook.processDelivery marshal cfg now r st d).stats "total_retries")
            (Webhook.processDelivery marshal cfg now r st d).delivery
        refine ⟨List.chain'_cons'.mpr ⟨?_, ihc⟩, ?_⟩
        · intro y hy
          exact ihh y hy
        · intro d0 h0
          cases h0
          exact hatt
      · rw [show Webhook.runAttempts marshal cfg now st d (r :: rest) =
            (let out := Webhook.processDelivery marshal cfg now r st d
             if out.wantsRetry then
               let p := Webhook.runAttempts marshal cfg now
                 (Webhook.incrementStat out.stats "total_retries") out.delivery rest
               (out.delivery :: p.1, p.2)
             else ([out.delivery], out.stats)) from rfl]
        simp only [hr, if_false]
        refine ⟨List.chain'_singleton _, ?_⟩
        intro d0 h0
        cases h0
        exact hatt

/-- C9: delivery attempts are monotone and bounded, and an expired item is
never resubmitted.  For a freshly queued delivery (`attempts = 0`, status
`pending`) with a non-negative retry budget: (a) every state in its
attempt trace has `attempts ≤ maxRetries + 1` (the code in fact keeps
`attempts ≤ maxRetries`); (b) the counter increases by exactly one per
attempt along the trace, starting at 1; (c) a `processDelivery` step on
any non-expired item that marks it `expired` schedules no resubmission —
and the worker loop never re-enters an item unless a retry was scheduled,
so an expired item is never resubmitted. -/
theorem delivery_attempts_monotone_bounded {α : Type}
    (marshal : Webhook.Payload α → Option (List Nat)) (cfg : Option Webhook.Config)
    (now : Int) (resps : List Webhook.HTTPResult) (st : Webhook.Stats)
    (d : Webhook.Delivery α)
    (hstart : d.attempts = 0) (hmr : 0 ≤ d.maxRetries) :
    (∀ d' ∈ (Webhook.runAttempts marshal cfg now st d resps).1,
      d'.attempts ≤ d.maxRetries + 1) ∧
    (List.Chain' (fun a b => b.attempts = a.attempts + 1)
        (Webhook.runAttempts marshal cfg now st d resps).1 ∧
      ∀ d0, (Webhook.runAttempts marshal cfg now st d resps).1.head? = some d0 →
        d0.attempts = 1) ∧
    (∀ (resp : Webhook.HTTPResult) (st' : Webhook.Stats) (d0 : Webhook.Delivery α),
      d0.status ≠ "expired" →
      (Webhook.processDelivery marshal cfg now resp st' d0).delivery.status = "expired" →
      (Webhook.processDelivery marshal cfg now resp st' d0).wantsRetry = false) := by
  refine ⟨?_, ⟨(runAttempts_chain marshal cfg now resps st d).1, ?_⟩, ?_⟩
  · exact runAttempts_attempts_le marshal cfg now resps st d (by omega)
  · intro d0 h0
    have := (runAttempts_chain marshal cfg now resps st d).2 d0 h0
    omega
  · intro resp st' d0 hne
    unfold Webhook.processDelivery Webhook.handleDeliveryFailure
    dsimp only
    repeat' split
    all_goals intro h2
    all_goals simp_all

/-- Witness for C9 at a concrete delivery and response list. -/
theorem delivery_attempts_monotone_bounded_witness :
    deliverySample.attempts = 0 ∧ (0 : Int) ≤ deliverySample.maxRetries ∧
    ((∀ d' ∈ (Webhook.runAttempts marshalConst (some cfgSample) 0 Webhook.Stats.zero
        deliverySample [Webhook.HTTPResult.ok 500, Webhook.HTTPResult.ok 500]).1,
      d'.attempts ≤ deliverySample.maxRetries + 1) ∧
    (List.Chain' (fun a b => b.attempts = a.attempts + 1)
        (Webhook.runAttempts marshalConst (some cfgSample) 0 Webhook.Stats.zero
          deliverySample [Webhook.HTTPResult.ok 500, Webhook.HTTPResult.ok 500]).1 ∧
      ∀ d0, (Webhook.runAttempts marshalConst (some cfgSample) 0 Webhook.Stats.zero
          deliverySample [Webhook.HTTPResult.ok 500, Webhook.HTTPResult.ok 500]).1.head? =
          some d0 → d0.attempts = 1) ∧
    (∀ (resp : Webhook.HTTPResult) (st' : Webhook.Stats) (d0 : Webhook.Delivery Unit),
      d0.status ≠ "expired" →
      (Webhook.processDelivery marshalConst (some cfgSample) 0 resp st' d0).delivery.status =
        "expired" →
      (Webhook.processDelivery marshalConst (some cfgSample) 0 resp st' d0).wantsRetry =
        false)) :=
  ⟨rfl, by decide,
    delivery_attempts_monotone_bounded marshalConst (some cfgSample) 0
      [Webhook.HTTPResult.ok 500, Webhook.HTTPResult.ok 500]
      Webhook.Stats.zero deliverySample rfl (by decide)⟩

/-- `bytesBE` produces bytes. -/
theorem bytesBE_lt (n x : Nat) : ∀ b ∈ Sha256.bytesBE n x, b < 256 := by
  intro b hb
  simp only [Sha256.bytesBE, List.mem_map, List.mem_range] at hb
  obtain ⟨i, _, rfl⟩ := hb
  exact Nat.mod_lt _ (by norm_num)

/-- `sha256` produces bytes. -/
theorem sha256_bytes_lt (msg : List Nat) : ∀ b ∈ Sha256.sha256 msg, b < 256 := by
  intro b hb
  unfold Sha256.sha256 at hb
  simp only [List.mem_flatten, List.mem_map] at hb
  obtain ⟨_, ⟨w, _, rfl⟩, hw⟩ := hb
  exact bytesBE_lt 4 w b hw

/-- `hmacSha256` produces bytes. -/
theorem hmacSha256_bytes_lt (key msg : List Nat) :
    ∀ b ∈ hmacSha256 key msg, b < 256 := by
  intro b hb
  unfold hmacSha256 at hb
  exact sha256_bytes_lt _ b hb

/-- Every nibble renders to a character of `0123456789abcdef`. -/
theorem hexDigitChar_mem :
    ∀ n, n < 16 → hexDigitChar n ∈ ("0123456789abcdef".toList) := by
  decide

/-- The character list underlying `hexEncode`. -/
theorem hexEncode_toList (bs : List Nat) :
    (hexEncode bs).toList =
      bs.foldr (fun b acc => hexDigitChar (b >>> 4) :: hexDigitChar (b &&& 15) :: acc) [] :=
  rfl

/-- Hex encodings of byte lists use only the lowercase hex alphabet. -/
theorem hexEncode_chars (bs : List Nat) (hbs : ∀ b ∈ bs, b < 256) :
    ∀ ch ∈ (hexEncode bs).toList, ch ∈ ("0123456789abcdef".toList) := by
  induction bs with
  | nil =>
      intro ch hch
      rw [hexEncode_toList] at hch
      cases hch
  | cons b rest ih =>
      intro ch hch
      rw [hexEncode_toList] at hch
      simp only [List.foldr_cons, List.mem_cons] at hch
      rcases hch with rfl | hch
      · apply hexDigitChar_mem
        have hb : b < 256 := hbs b (List.mem_cons_self _ _)
        have h16 : b >>> 4 = b / 2 ^ 4 := Nat.shiftRight_eq_div_pow b 4
        norm_num at h16
        omega
      · rcases hch with rfl | hch
        · apply hexDigitChar_mem
          have : b &&& 15 ≤ 15 := Nat.and_le_right
          omega
        · have := ih (fun b' hb' => hbs b' (List.mem_cons_of_mem _ hb'))
          rw [hexEncode_toList] at this
          exact this ch hch

/-- With the signature header set after the custom headers and before only
the timestamp header, its effective value is the signature. -/
theorem headerValue_signature (custom : List (String × String)) (sig ts : String) :
    Webhook.headerValue
      ([("Content-Type", "application/json"), ("User-Agent", "ZPigo-Webhook/1.0")] ++
        custom ++ [("X-Webhook-Signature", sig)] ++ [("X-Webhook-Timestamp", ts)])
      "X-Webhook-Signature" = some sig := by
  unfold Webhook.headerValue
  simp [List.lookup]

/-- C8: whenever the delivery's session has a configuration with a
non-empty secret, the POST request built by `processDelivery` carries an
`X-Webhook-Signature` header whose effective value is exactly `"sha256="`
followed by the lowercase hex encoding of HMAC-SHA256, keyed by the
secret's bytes, over the exact bytes transmitted as the request body —
and that body is the serialized payload. -/
theorem webhook_signature_matches_body {α : Type}
    (marshal : Webhook.Payload α → Option (List Nat)) (cfg : Webhook.Config)
    (now : Int) (resp : Webhook.HTTPResult) (st : Webhook.Stats)
    (d : Webhook.Delivery α) (bytes : List Nat)
    (hm : marshal d.payload = some bytes) (hsec : cfg.secret ≠ "") :
    ∃ req, (Webhook.processDelivery marshal (some cfg) now resp st d).request = some req ∧
      req.body = bytes ∧
      Webhook.headerValue req.headers "X-Webhook-Signature" =
        some ("sha256=" ++ hexEncode (hmacSha256 (utf8Bytes cfg.secret) req.body)) ∧
      ∀ ch ∈ (hexEncode (hmacSha256 (utf8Bytes cfg.secret) req.body)).toList,
        ch ∈ ("0123456789abcdef".toList) := by
  unfold Webhook.processDelivery
  dsimp only
  rw [hm]
  dsimp only
  rw [if_pos hsec]
  have hsig : ∀ body : List Nat,
      Webhook.headerValue
        ([("Content-Type", "application/json"), ("User-Agent", "ZPigo-Webhook/1.0")] ++
          cfg.headers ++ [("X-Webhook-Signature", Webhook.generateSignature body cfg.secret)] ++
          [("X-Webhook-Timestamp", toString now)])
        "X-Webhook-Signature" =
        some ("sha256=" ++ hexEncode (hmacSha256 (utf8Bytes cfg.secret) body)) := by
    intro body
    rw [headerValue_signature]
    rfl
  have hhex : ∀ ch ∈ (hexEncode (hmacSha256 (utf8Bytes cfg.secret) bytes)).toList,
      ch ∈ ("0123456789abcdef".toList) :=
    hexEncode_chars _ (hmacSha256_bytes_lt _ _)
  cases resp with
  | netErr msg => exact ⟨_, rfl, rfl, hsig bytes, hhex⟩
  | ok code =>
      dsimp only
      by_cases hcode : 200 ≤ code ∧ code < 300
      · rw [if_pos hcode]
        exact ⟨_, rfl, rfl, hsig bytes, hhex⟩
      · rw [if_neg hcode]
        exact ⟨_, rfl, rfl, hsig bytes, hhex⟩

/-- Witness for C8 at a concrete secret and payload. -/
theorem webhook_signature_matches_body_witness :
    marshalConst deliverySample.payload = some [123, 125] ∧
    ({ cfgSample with secret := "topsecret" } : Webhook.Config).secret ≠ "" ∧
    ∃ req, (Webhook.processDelivery marshalConst
        (some { cfgSample with secret := "topsecret" }) 0
        (Webhook.HTTPResult.ok 200) Webhook.Stats.zero deliverySample).request = some req ∧
      req.body = [123, 125] ∧
      Webhook.headerValue req.headers "X-Webhook-Signature" =
        some ("sha256=" ++
          hexEncode (hmacSha256 (utf8Bytes ({ cfgSample with secret := "topsecret" } :
            Webhook.Config).secret) req.body)) ∧
      ∀ ch ∈ (hexEncode (hmacSha256 (utf8Bytes ({ cfgSample with secret := "topsecret" } :
          Webhook.Config).secret) req.body)).toList,
        ch ∈ ("0123456789abcdef".toList) :=
  ⟨rfl, by decide,
    webhook_signature_matches_body marshalConst { cfgSample with secret := "topsecret" }
      0 (Webhook.HTTPResult.ok 200) Webhook.Stats.zero deliverySample [123, 125]
      rfl (by decide)⟩

/-- A word of at least two characters that avoids `x` and does not occur
in `p` cannot occur in `p ++ [x, c]`: an occurrence would have to include
one of the two final positions, and with length at least two it would
then contain `x`. -/
theorem not_infix_append_pair {dec p : List Char} {x c : Char}
    (hlen : 2 ≤ dec.length) (hx : x ∉ dec) (hp : ¬ dec <:+: p) :
    ¬ dec <:+: (p ++ [x, c]) := by
  intro h
  have h' : dec.reverse <:+: (c :: x :: p.reverse) := by
    have hrev := List.reverse_infix.mpr h
    simpa using hrev
  obtain ⟨s, t, hst⟩ := h'
  have hlen' : 2 ≤ dec.reverse.length := by simpa using hlen
  have hxrev : x ∉ dec.reverse := by simpa using hx
  rcases hdr : dec.reverse with _ | ⟨a, _ | ⟨b, rest⟩⟩
  · rw [hdr] at hlen'; simp at hlen'
  · rw [hdr] at hlen'; simp at hlen'
  · rw [hdr] at hst hxrev
    rcases s with _ | ⟨s0, _ | ⟨s1, s'⟩⟩
    · simp only [List.nil_append, List.cons_append, List.cons.injEq] at hst
      refine hxrev ?_
      rw [hst.2.1]
      exact List.mem_cons_of_mem _ (List.mem_cons_self _ _)
    · simp only [List.nil_append, List.cons_append, List.cons.injEq] at hst
      refine hxrev ?_
      rw [hst.2.1]
      exact List.mem_cons_self _ _
    · simp only [List.nil_append, List.cons_append, List.cons.injEq] at hst
      have hinf : dec.reverse <:+: p.reverse := by
        rw [hdr]
        refine ⟨s', t, ?_⟩
        have h22 := hst.2.2
        simpa [List.append_assoc] using h22
      exact hp ( List.reverse_infix.mp hinf)

/-- For a positive port below the surrogate range, Go's `string(rune(n))`
is the single character with code point `n`. -/
theorem goRuneString_valid (n : Int) (h0 : 0 < n) (hv : n < 0xd800) :
    Meow.goRuneString n = String.singleton (Char.ofNat n.toNat) := by
  unfold Meow.goRuneString Meow.int32wrap
  dsimp only
  have hwrap : (n + 2147483648) % 4294967296 - 2147483648 = n := by omega
  rw [hwrap, if_pos ⟨by omega, Or.inl (by omega)⟩]

/-- `GetProxyURL`'s output decomposed: the prefix, a colon, and the
rune-converted port. -/
theorem getProxyURL_eq (s : Meow.GoSession) (h : Meow.hasProxy s = true) :
    Meow.getProxyURL s =
      Meow.proxyURLStem s ++ ":" ++ Meow.goRuneString s.proxyPort := by
  unfold Meow.getProxyURL Meow.proxyURLStem
  rw [if_neg (by simp [h])]
  split <;> (dsimp only; split <;> simp [String.append_assoc])

/-- C10 counterexample: for the session with proxy host `10.0.0.1` and
port `10`, the returned URL `http://10.0.0.1:\n` does contain the port's
decimal string `"10"` — inside the host — so "for every port value of 10
or more the returned URL does not contain the port's decimal string" is
false as universally stated.  (The port position itself still holds the
single rune, as the amended claim records.) -/
theorem getProxyURL_decimal_counterexample :
    (10 : Int) ≤ sessProxyHost10.proxyPort ∧
    "10".toList <:+: (Meow.getProxyURL sessProxyHost10).toList := by
  exact ⟨by decide, by decide⟩

/-- C10 amended: for every session with a non-empty proxy host and a
positive proxy port below the Unicode surrogate range, `GetProxyURL`
renders the port position as the single character with code point equal
to the port value (`string(rune(port))`), not its decimal digits; and any
candidate decimal string — two or more characters, no colon — that does
not already occur in the scheme/credentials/host prefix does not occur in
the returned URL at all. -/
theorem getProxyURL_rune_port (s : Meow.GoSession)
    (hhost : s.proxyHost ≠ "") (hport : 0 < s.proxyPort)
    (hvalid : s.proxyPort < 0xd800) :
    Meow.getProxyURL s =
      Meow.proxyURLStem s ++ ":" ++ String.singleton (Char.ofNat s.proxyPort.toNat) ∧
    ∀ dec : List Char, 2 ≤ dec.length → (':' : Char) ∉ dec →
      ¬ dec <:+: (Meow.proxyURLStem s).toList →
      ¬ dec <:+: (Meow.getProxyURL s).toList := by
  have hp : Meow.hasProxy s = true := by
    simp [Meow.hasProxy, hhost]
    omega
  have heq0 : Meow.getProxyURL s =
      Meow.proxyURLStem s ++ ":" ++ Meow.goRuneString s.proxyPort :=
    getProxyURL_eq s hp
  have hrune := goRuneString_valid s.proxyPort hport hvalid
  refine ⟨by rw [heq0, hrune], ?_⟩
  intro dec hlen hcolon hpre hinf
  rw [heq0, hrune] at hinf
  have hlist : (Meow.proxyURLStem s ++ ":" ++
      String.singleton (Char.ofNat s.proxyPort.toNat)).toList =
      (Meow.proxyURLStem s).toList ++ [':', Char.ofNat s.proxyPort.toNat] := by
    simp
  rw [hlist] at hinf
  exact not_infix_append_pair hlen hcolon hpre hinf

/-- Witness for C10's amended theorem: host `proxy.example.com`, port
8080; the URL ends in the single rune U+1F90 and nowhere contains
`"8080"`. -/
theorem getProxyURL_rune_port_witness :
    sessProxy8080.proxyHost ≠ "" ∧
    (Meow.getProxyURL sessProxy8080 =
      Meow.proxyURLStem sessProxy8080 ++ ":" ++
        String.singleton (Char.ofNat (8080 : Int).toNat)) ∧
    ¬ "8080".toList <:+: (Meow.getProxyURL sessProxy8080).toList :=
  ⟨by decide,
    (getProxyURL_rune_port sessProxy8080 (by decide) (by decide) (by decide)).1,
    (getProxyURL_rune_port sessProxy8080 (by decide) (by decide) (by decide)).2
      "8080".toList (by decide) (by decide) (by decide)⟩

end ZPigo
